import Mathlib

/-!
# Demo Maker — Element Locator & Step Playback Engine, shallow embedding

This file embeds the core of the `obsidian-demo-maker` plugin in Lean 4:

* the multi-strategy element resolver (`src/core/Locator.ts`:
  `checkContext`, the eight `locateBy…` strategy functions, `resolveLocator`,
  `pollLocator`),
* the structural selector builder (`src/core/LocatorUtils.ts`:
  `buildCssSelector`),
* the step playback state machine (`PlayerService` in the player module:
  `stop`, `next`, `prev`, `showCurrentStep`, `handleNext`, `handleClick`,
  `clearTimers`, `unbindListeners`, the select-change handler and the
  continuation of `handleTargetStep` after an awaited poll).

The live DOM is abstracted as a `Doc` structure whose fields record the
outcome of exactly the query primitives the source code performs
(`document.querySelector` for each selector shape it builds, candidate
element lists for the text scans, `textContent` of an element).  The
translated functions mirror the TypeScript control flow over these
primitives, including JavaScript string truthiness (`""` is falsy) and the
try/catch around `document.querySelector` for the structural strategy.
-/

/-- A live DOM element, identified abstractly. -/
structure Elem where
  eid : Nat
deriving DecidableEq, Repr

/-- Models the browser built-in `CSS.escape`.  Its exact escaping algorithm is
external to the repository; the resolver only threads its output into query
selector strings, so it is modelled as an abstract injective encoding (here:
the identity). -/
def cssEscape (s : String) : String := s

/-- JavaScript truthiness of an optional string field: `undefined` and `""`
are falsy. -/
def tstr : Option String → Bool
  | some s => !s.isEmpty
  | none => false

/-- `bs` starts with `as` (character lists). -/
def charsPrefix : List Char → List Char → Bool
  | [], _ => true
  | _ :: _, [] => false
  | a :: as, b :: bs => a == b && charsPrefix as bs

/-- `ts` occurs as a contiguous run inside `ss` (character lists). -/
def charsIncludes : List Char → List Char → Bool
  | ss, ts =>
    if charsPrefix ts ss then true
    else
      match ss with
      | [] => false
      | _ :: rest => charsIncludes rest ts

/-- JavaScript `String.prototype.includes`: `t` occurs as a contiguous
substring of `s` (the empty string is included in every string). -/
def strIncludes (s t : String) : Bool :=
  charsIncludes s.toList t.toList

/-- JavaScript `String.prototype.startsWith`. -/
def strStartsWith (s t : String) : Bool :=
  charsPrefix t.toList s.toList

/-- The whitespace class trimmed by JavaScript `String.prototype.trim`
(ASCII whitespace plus no-break space and the BOM; other Unicode space
separators are omitted, none of which occur in the strings this program
compares). -/
def isJsWhitespace (c : Char) : Bool :=
  c == ' ' || c == '\t' || c == '\n' || c == '\r' ||
    c == '\x0b' || c == '\x0c' || c == '\u00a0' || c == '\ufeff'

/-- JavaScript `String.prototype.trim`. -/
def jsTrim (s : String) : String :=
  ⟨((s.toList.dropWhile isJsWhitespace).reverse.dropWhile isJsWhitespace).reverse⟩

/-- JavaScript `String.prototype.toLowerCase`, restricted to ASCII case
folding (the only case distinction exercised by this program's data). -/
def jsToLower (s : String) : String :=
  ⟨s.toList.map Char.toLower⟩

/-- `controlType` union from `src/core/types.ts`. -/
inductive ControlType
  | select
  | toggle
  | button
  | input
  | slider
deriving DecidableEq, Repr

/-- `LocatorContext` from `src/core/types.ts` (`sidebarType` is declared in
the source but never read by the resolver). -/
structure LocatorContext where
  modal : Option Bool := none
  modalClass : Option String := none
  settingsTab : Option String := none
  sidebarType : Option String := none
deriving DecidableEq, Repr

/-- `Locator` from `src/core/types.ts`. -/
structure Locator where
  ariaLabel : Option String := none
  dataType : Option String := none
  settingId : Option String := none
  settingName : Option String := none
  controlType : Option ControlType := none
  placeholder : Option String := none
  elementType : Option String := none
  textContent : Option String := none
  textContains : Option String := none
  cssSelector : Option String := none
  context : Option LocatorContext := none
  humanDescription : Option String := none
deriving DecidableEq, Repr

/-- `LocateResult` from `src/core/Locator.ts`. -/
structure LocateResult where
  element : Option Elem
  strategy : String
  success : Bool
  error : Option String := none
deriving DecidableEq, Repr

/-- The `.setting-item-control` child of one `.setting-item` row, with the
result of each scoped `querySelector` that `locateBySettingName` may run on
it. -/
structure SettingControlEl where
  /-- `controlEl.querySelector('select')` -/
  selectEl : Option Elem := none
  /-- `controlEl.querySelector('.checkbox-container')` -/
  toggleEl : Option Elem := none
  /-- `controlEl.querySelector('button')` -/
  buttonEl : Option Elem := none
  /-- `controlEl.querySelector('input:not([type="range"])')` -/
  inputEl : Option Elem := none
  /-- `controlEl.querySelector('input[type="range"]')` -/
  sliderEl : Option Elem := none
  /-- `controlEl.querySelector('select, button, input, .checkbox-container')` -/
  anyControl : Option Elem := none
deriving DecidableEq, Repr

/-- One `.setting-item` row as seen by `locateBySettingName`. -/
structure SettingItem where
  /-- `item.querySelector('.setting-item-name')?.textContent` -/
  nameText : Option String := none
  /-- `item.querySelector('.setting-item-control')`, `none` when absent -/
  control : Option SettingControlEl := none
deriving DecidableEq, Repr

/-- The live interface surface, abstracted as the outcome of each DOM query
primitive the resolver performs.  A `Doc` is a snapshot of the document at
one instant; polling re-queries a possibly different snapshot per attempt. -/
structure Doc where
  /-- `document.querySelector('.modal-container')` -/
  modalContainer : Option Elem := none
  /-- `document.querySelector('.modal-container .' ++ c)` for a modal class `c` -/
  modalClassQuery : String → Option Elem := fun _ => none
  /-- `document.querySelector('.vertical-tab-content.active')` -/
  activeTab : Option Elem := none
  /-- `document.querySelector('[aria-label="' ++ v ++ '"]')` -/
  ariaLabelQuery : String → Option Elem := fun _ => none
  /-- `document.querySelector('[data-type="' ++ v ++ '"]')` -/
  dataTypeQuery : String → Option Elem := fun _ => none
  /-- `document.querySelector('[data-setting-id="' ++ v ++ '"]')` -/
  settingIdQuery : String → Option Elem := fun _ => none
  /-- `document.querySelector('[data-id="' ++ v ++ '"]')` -/
  dataIdQuery : String → Option Elem := fun _ => none
  /-- `searchRoot.querySelectorAll('.setting-item')` where `searchRoot` is
  `document.querySelector('.modal-container') || document` -/
  settingItems : List SettingItem := []
  /-- text-search candidates inside the modal container
  (`modal.querySelectorAll('button, a, span, div, li, label, p, h1…h6, …')`) -/
  textCandidatesModal : List Elem := []
  /-- the same candidate query over the whole document -/
  textCandidatesDoc : List Elem := []
  /-- `document.querySelectorAll('button, a, span, div, li, [role="button"], [role="menuitem"]')` -/
  containsCandidates : List Elem := []
  /-- `el.textContent || ''` -/
  textOf : Elem → String := fun _ => ""
  /-- `root.querySelector(sel)` where `root` is
  `document.querySelector('.modal-container') || document`, for the input
  attribute selector strings built by `locateByInputAttributes` -/
  inputQuery : String → Option Elem := fun _ => none
  /-- `document.querySelector(sel)` for an arbitrary recorded selector string;
  throws (`Except.error`) on a syntactically malformed selector -/
  cssQuery : String → Except Unit (Option Elem) := fun _ => .ok none
deriving Inhabited

/-- `checkContext` from `src/core/Locator.ts`: the three sequential context
checks, each returning `false` on mismatch. -/
def checkContext (doc : Doc) (context : LocatorContext) : Bool :=
  -- if (context.modal !== undefined) { if (context.modal !== hasModal) return false; }
  (match context.modal with
    | some m => m == doc.modalContainer.isSome
    | none => true)
  -- if (context.modalClass) { if (!modal) return false; }
  && (if tstr context.modalClass then
        (doc.modalClassQuery (context.modalClass.getD "")).isSome
      else true)
  -- if (context.settingsTab) { if (!activeTab) return false; }
  && (if tstr context.settingsTab then doc.activeTab.isSome else true)

/-- `locateByAriaLabel` from `src/core/Locator.ts`. -/
def locateByAriaLabel (doc : Doc) (ariaLabel : String) : Option Elem :=
  doc.ariaLabelQuery (cssEscape ariaLabel)

/-- `locateByDataType` from `src/core/Locator.ts`. -/
def locateByDataType (doc : Doc) (dataType : String) : Option Elem :=
  doc.dataTypeQuery (cssEscape dataType)

/-- The inner `searchIn` closure of `locateByTextContent`: scan the candidate
list for an exact trimmed-text match (original case), then rescan ignoring
case. -/
def searchInCandidates (doc : Doc) (cands : List Elem) (normalizedText : String) :
    Option Elem :=
  match cands.find? (fun el => jsTrim (doc.textOf el) == normalizedText) with
  | some el => some el
  | none =>
      cands.find? (fun el =>
        jsToLower (jsTrim (doc.textOf el)) == jsToLower normalizedText)

/-- `locateByTextContent` from `src/core/Locator.ts`: search inside the modal
container first when one exists, then over the whole document. -/
def locateByTextContent (doc : Doc) (text : String) : Option Elem :=
  let normalizedText := jsTrim text
  match doc.modalContainer with
  | some _ =>
      match searchInCandidates doc doc.textCandidatesModal normalizedText with
      | some result => some result
      | none => searchInCandidates doc doc.textCandidatesDoc normalizedText
  | none => searchInCandidates doc doc.textCandidatesDoc normalizedText

/-- `locateByTextContains` from `src/core/Locator.ts`: first candidate whose
lower-cased trimmed text contains the lower-cased trimmed needle. -/
def locateByTextContains (doc : Doc) (text : String) : Option Elem :=
  let normalizedText := jsToLower (jsTrim text)
  doc.containsCandidates.find? (fun el =>
    strIncludes (jsToLower (jsTrim (doc.textOf el))) normalizedText)

/-- `locateByCssSelector` from `src/core/Locator.ts`: a throwing
`document.querySelector` (malformed selector) is caught and mapped to
`null`. -/
def locateByCssSelector (doc : Doc) (selector : String) : Option Elem :=
  match doc.cssQuery selector with
  | .ok result => result
  | .error _ => none  -- catch (e): warn and return null

/-- `locateBySettingId` from `src/core/Locator.ts`: `data-setting-id`
first, falling back to `data-id`. -/
def locateBySettingId (doc : Doc) (settingId : String) : Option Elem :=
  match doc.settingIdQuery (cssEscape settingId) with
  | some el => some el
  | none => doc.dataIdQuery (cssEscape settingId)

/-- The per-row control lookup inside `locateBySettingName`'s loop body: the
scoped `querySelector` chosen by `controlType` (the last branch handles the
unspecified-type case). -/
def settingControlLookup (ctrl : SettingControlEl) (controlType : Option ControlType) :
    Option Elem :=
  match controlType with
  | some .select => ctrl.selectEl
  | some .toggle => ctrl.toggleEl
  | some .button => ctrl.buttonEl
  | some .input => ctrl.inputEl
  | some .slider => ctrl.sliderEl
  | none => ctrl.anyControl

/-- The `for … of settingItems` loop of `locateBySettingName`: on a row whose
trimmed name matches, return the looked-up control if present, otherwise
`continue` with the remaining rows. -/
def settingNameLoop (settingName : String) (controlType : Option ControlType) :
    List SettingItem → Option Elem
  | [] => none
  | item :: rest =>
      if item.nameText.map jsTrim == some settingName then
        match item.control with
        | none => settingNameLoop settingName controlType rest
        | some ctrl =>
            match settingControlLookup ctrl controlType with
            | some el => some el
            | none => settingNameLoop settingName controlType rest
      else settingNameLoop settingName controlType rest

/-- `locateBySettingName` from `src/core/Locator.ts`. -/
def locateBySettingName (doc : Doc) (settingName : String)
    (controlType : Option ControlType) : Option Elem :=
  settingNameLoop settingName controlType doc.settingItems

/-- `locateByInputAttributes` from `src/core/Locator.ts`: build the selector
string from whichever of placeholder/type are (truthily) present and query
it against the modal-or-document root. -/
def locateByInputAttributes (doc : Doc) (placeholder elementType : Option String) :
    Option Elem :=
  if !tstr placeholder && !tstr elementType then none
  else
    let p := cssEscape (placeholder.getD "")
    let t := cssEscape (elementType.getD "")
    let selector :=
      if tstr placeholder && tstr elementType then
        "input[placeholder=\"" ++ p ++ "\"][type=\"" ++ t ++
          "\"], textarea[placeholder=\"" ++ p ++ "\"]"
      else if tstr placeholder then
        "input[placeholder=\"" ++ p ++ "\"], textarea[placeholder=\"" ++ p ++ "\"]"
      else if tstr elementType then
        "input[type=\"" ++ t ++ "\"]"
      else ""
    if selector.isEmpty then none
    else doc.inputQuery selector

/-- `resolveLocator` from `src/core/Locator.ts`: context gate first, then the
eight strategies in source order, short-circuiting on the first non-null
element.  `debug` only switches console logging in the source and has no
effect on the result. -/
def resolveLocator (doc : Doc) (locator : Locator) (debug : Bool := false) :
    LocateResult :=
  -- if (locator.context && !checkContext(locator.context)) return context failure
  if locator.context.isSome && !checkContext doc (locator.context.getD {}) then
    { element := none, strategy := "context", success := false,
      error := some "上下文条件不满足" }
  else
    -- 策略 1: aria-label
    match (if tstr locator.ariaLabel then
            locateByAriaLabel doc (locator.ariaLabel.getD "") else none) with
    | some el => { element := some el, strategy := "ariaLabel", success := true }
    | none =>
    -- 策略 2: data-type
    match (if tstr locator.dataType then
            locateByDataType doc (locator.dataType.getD "") else none) with
    | some el => { element := some el, strategy := "dataType", success := true }
    | none =>
    -- 策略 3: setting-id
    match (if tstr locator.settingId then
            locateBySettingId doc (locator.settingId.getD "") else none) with
    | some el => { element := some el, strategy := "settingId", success := true }
    | none =>
    -- 策略 4: settingName + controlType
    match (if tstr locator.settingName then
            locateBySettingName doc (locator.settingName.getD "") locator.controlType
          else none) with
    | some el => { element := some el, strategy := "settingName", success := true }
    | none =>
    -- 策略 4.5: 输入框属性定位 (placeholder/type)
    match (if tstr locator.placeholder || tstr locator.elementType then
            locateByInputAttributes doc locator.placeholder locator.elementType
          else none) with
    | some el => { element := some el, strategy := "inputAttributes", success := true }
    | none =>
    -- 策略 5: 精确文本
    match (if tstr locator.textContent then
            locateByTextContent doc (locator.textContent.getD "") else none) with
    | some el => { element := some el, strategy := "textContent", success := true }
    | none =>
    -- 策略 5: 包含文本
    match (if tstr locator.textContains then
            locateByTextContains doc (locator.textContains.getD "") else none) with
    | some el => { element := some el, strategy := "textContains", success := true }
    | none =>
    -- 策略 6: CSS 选择器（降级）
    match (if tstr locator.cssSelector then
            locateByCssSelector doc (locator.cssSelector.getD "") else none) with
    | some el => { element := some el, strategy := "cssSelector", success := true }
    | none =>
      { element := none, strategy := "none", success := false,
        error := some (if tstr locator.humanDescription then
          "无法定位元素: " ++ locator.humanDescription.getD ""
        else "无法定位元素") }

/-!
## Polling resolver (`pollLocator` in `src/core/Locator.ts`)

The promise/`setTimeout` recursion is embedded as a terminating recursion.
Each attempt re-queries the live document, so the environment is a sequence
of document snapshots `docs : Nat → Doc` (`docs k` is the document at the
`k`-th attempt, counting from 1 as the source's `attempts` counter does).
`timersScheduled` counts the `setTimeout(tryLocate, intervalMs)` calls, and
`attemptsUsed` is the final value of the `attempts` counter.
-/

/-- Observable outcome of one `pollLocator` run. -/
structure PollOutcome where
  result : LocateResult
  attemptsUsed : Nat
  timersScheduled : Nat
deriving DecidableEq, Repr

/-- The inner `tryLocate` closure of `pollLocator`: bump the attempt counter,
resolve against the current snapshot (verbose debug output only on the last
attempt), resolve the promise on success or exhaustion, otherwise schedule
one retry timer.

The source recursion is bounded by the `attempts >= maxAttempts` check; to
keep the definition kernel-reducible it recurses structurally on
`remaining = maxAttempts - attempts` (maintained by `pollLocator` passing
`remaining = maxAttempts` at `attempts = 0`).  Under that invariant
`maxAttempts ≤ attempts + 1` holds exactly when `remaining ≤ 1`, so the
stopping condition is unchanged. -/
def tryLocate (docs : Nat → Doc) (locator : Locator) (maxAttempts : Nat)
    (debug : Bool) : (attempts timers remaining : Nat) → PollOutcome
  | attempts, timers, remaining =>
    let attempts' := attempts + 1
    let shouldDebug := debug && (attempts' == maxAttempts)
    let result := resolveLocator (docs attempts') locator shouldDebug
    if result.success then
      { result := result, attemptsUsed := attempts', timersScheduled := timers }
    else
      match remaining with
      | 0 =>
          { result := result, attemptsUsed := attempts', timersScheduled := timers }
      | 1 =>
          { result := result, attemptsUsed := attempts', timersScheduled := timers }
      | r + 2 =>
          -- setTimeout(tryLocate, intervalMs)
          tryLocate docs locator maxAttempts debug attempts' (timers + 1) (r + 1)

/-- `pollLocator` from `src/core/Locator.ts` (defaults: 20 attempts, 200 ms
interval).  The interval only affects wall-clock spacing of the retries, so
it does not appear in the observable outcome. -/
def pollLocator (docs : Nat → Doc) (locator : Locator)
    (maxAttempts : Nat := 20) (intervalMs : Nat := 200) (debug : Bool := false) :
    PollOutcome :=
  tryLocate docs locator maxAttempts debug 0 0 maxAttempts

/-!
## Structural selector builder (`buildCssSelector` in `src/core/LocatorUtils.ts`)

An element is modelled as the chain of DOM nodes from the element itself up
toward `document.body`: the walk stops at `document.body` or at a missing
parent, both of which appear as the end of the list.  Each node records the
attributes the builder reads.
-/

/-- One node on the ancestor chain, with the attributes `buildCssSelector`
reads from it. -/
structure DomNode where
  /-- `tagName.toLowerCase()` -/
  tag : String
  /-- the `id` property (`""` when unset) -/
  idAttr : String := ""
  /-- `Array.from(classList)` -/
  classList : List String := []
  /-- `getAttribute('placeholder')` (`none` when absent) -/
  placeholderAttr : Option String := none
  /-- `getAttribute('type')` (`none` when absent) -/
  typeAttr : Option String := none
  /-- the 1-based same-tag index among the parent's children computed by the
  sibling loop; `none` when `parentElement` is null -/
  ordinal : Option Nat := none
deriving DecidableEq, Repr

/-- The class filter of `buildCssSelector`: `c.match(/^[a-z]{20,}$/)` — the
whole token is at least 20 lowercase ASCII letters. -/
def looksAutoGenerated (c : String) : Bool :=
  20 ≤ c.length && c.toList.all (fun ch => 'a' ≤ ch && ch ≤ 'z')

/-- `meaningfulClasses` computation inside the loop body: drop `cm-`-prefixed
and auto-generated-looking tokens, keep at most two. -/
def meaningfulClasses (node : DomNode) : List String :=
  (node.classList.filter
    (fun c => !strStartsWith c "cm-" && !looksAutoGenerated c)).take 2

/-- The `while` loop of `buildCssSelector`, producing the `parts` entries in
processing order (leaf first; the source `unshift`s each entry, which is the
reversal performed in `buildCssSelector` below). -/
def buildCssSelectorParts (svgIconClass : Option String) :
    List DomNode → Nat → Bool → List String
  | [], _, _ => []
  | node :: rest, depth, isFirstElement =>
    if 4 ≤ depth then []
    else if !node.idAttr.isEmpty then
      -- if (current.id) { parts.unshift('#' + escape(id)); break; }
      ["#" ++ cssEscape node.idAttr]
    else
      let mc := meaningfulClasses node
      if 0 < mc.length then
        let classSelector := String.join (mc.map (fun c => "." ++ cssEscape c))
        let classSelector :=
          if isFirstElement && tstr svgIconClass then
            classSelector ++ ":has(." ++ cssEscape (svgIconClass.getD "") ++ ")"
          else classSelector
        let classSelector :=
          if isFirstElement && (node.tag == "input" || node.tag == "textarea") then
            if tstr node.placeholderAttr then
              classSelector ++ "[placeholder=\"" ++
                cssEscape (node.placeholderAttr.getD "") ++ "\"]"
            else if tstr node.typeAttr then
              classSelector ++ "[type=\"" ++ cssEscape (node.typeAttr.getD "") ++ "\"]"
            else classSelector
          else classSelector
        (node.tag ++ classSelector) ::
          buildCssSelectorParts svgIconClass rest (depth + 1) false
      else
        if isFirstElement && (node.tag == "input" || node.tag == "textarea")
            && tstr node.placeholderAttr then
          (node.tag ++ "[placeholder=\"" ++ cssEscape (node.placeholderAttr.getD "")
              ++ "\"]") ::
            buildCssSelectorParts svgIconClass rest (depth + 1) false
        else if isFirstElement && (node.tag == "input" || node.tag == "textarea")
            && tstr node.typeAttr then
          (node.tag ++ "[type=\"" ++ cssEscape (node.typeAttr.getD "") ++ "\"]") ::
            buildCssSelectorParts svgIconClass rest (depth + 1) false
        else
          (match node.ordinal with
            | some index => node.tag ++ ":nth-of-type(" ++ toString index ++ ")"
            | none => node.tag) ::
            buildCssSelectorParts svgIconClass rest (depth + 1) false

/-- `buildCssSelector` from `src/core/LocatorUtils.ts`: walk up the ancestor
chain and join the collected parts with `' > '` (root-most part first, as
produced by the source's `unshift`). -/
def buildCssSelector (chain : List DomNode) (svgIconClass : Option String := none) :
    String :=
  String.intercalate " > " (buildCssSelectorParts svgIconClass chain 0 true).reverse

/-!
## Step playback state machine (`PlayerService` in the player module)

The service's fields are embedded directly; DOM event listeners and timer
handles become booleans recording whether a handler/handle is currently
stored.  Side effects observable by collaborators (overlay renders, notices,
console warnings, lifecycle events, suppressed clicks, scheduled advance
timers, and `TypeError`s from dereferencing a nulled field) are returned as
an effect list.

One piece of JavaScript-runtime state is made explicit: `showCurrentStep`'s
dispatch `await`s `pollLocator`, whose retry timer lives inside the promise
in `src/core/Locator.ts`.  The service's `pollTimeout` field is declared and
cleared by `clearTimers`, but no assignment to it exists anywhere in the
source, so the in-flight poll is *not* reachable from `clearTimers`; it is
modelled as the `pending` component, which `stop` therefore leaves alone.
The resumption of such a continuation is `completeTargetPoll` /
`completeSelectPoll` below.
-/

/-- `PlayerState` from the player module. -/
inductive PlayerState
  | idle
  | playing
  | paused
deriving DecidableEq, Repr

/-- `FlowStep` from `src/core/types.ts` (annotations are presentation-only
and never read by the state machine). -/
inductive FlowStep
  | click (id : String) (locator : Locator)
  | input (id : String) (locator : Locator)
  | select (id : String) (locator : Locator) (expectedValue : String)
  | wait (id : String) (durationMs : Nat)
  | message (id : String) (locator : Option Locator)
deriving DecidableEq, Repr

/-- The locator carried by a step (`step.locator`). -/
def stepLocator : FlowStep → Option Locator
  | .click _ locator => some locator
  | .input _ locator => some locator
  | .select _ locator _ => some locator
  | .wait _ _ => none
  | .message _ locator => locator

/-- A `showCurrentStep` dispatch currently suspended on `await pollLocator`. -/
inductive PendingPoll
  | targetPoll (step : FlowStep)
  | selectPoll (step : FlowStep)
  | messagePoll (step : FlowStep)
deriving DecidableEq, Repr

/-- Side effects observable outside the service. -/
inductive Effect
  | notice (msg : String)
  | warn (msg : String)
  /-- `overlay.renderStep(step, target, …)` with the resolved target (or null) -/
  | render (target : Option Elem)
  | onStart
  | onEnd (completed : Bool)
  | stepChange (index : Nat)
  /-- `evt.stopPropagation(); evt.preventDefault()` -/
  | suppress
  /-- `setTimeout(() => this.next(), delayMs)` -/
  | scheduleNext (delayMs : Nat)
  /-- a `TypeError` thrown by dereferencing a nulled `overlay`/`flow`/step -/
  | crash
deriving DecidableEq, Repr

/-- The `PlayerService` instance state. -/
structure PlayerSvc where
  flow : Option (List FlowStep) := none
  currentIndex : Nat := 0
  state : PlayerState := .idle
  clickHandler : Bool := false
  keyHandler : Bool := false
  selectChangeHandler : Bool := false
  waitTimeout : Bool := false
  pollTimeout : Bool := false
  overlay : Bool := false
  currentTarget : Option Elem := none
  /-- runtime component (not a class field): the dispatch suspended on an
  awaited `pollLocator`, whose retry timer is internal to that promise -/
  pending : Option PendingPoll := none
deriving DecidableEq, Repr

/-- `clearTimers`: clear `waitTimeout` and `pollTimeout`, and remove the
select-change listener.  (It cannot reach the timer inside an awaited
`pollLocator` promise — `pollTimeout` is never assigned in the source.) -/
def clearTimers (p : PlayerSvc) : PlayerSvc :=
  { p with waitTimeout := false, pollTimeout := false, selectChangeHandler := false }

/-- `unbindListeners`: remove the click, keydown and select-change
listeners. -/
def unbindListeners (p : PlayerSvc) : PlayerSvc :=
  { p with clickHandler := false, keyHandler := false, selectChangeHandler := false }

/-- `PlayerService.stop`. -/
def PlayerSvc.stop (p : PlayerSvc) (message : Option String := none) :
    PlayerSvc × List Effect :=
  if p.state = .idle then (p, [])
  else
    let wasPlaying := p.flow
    let completed :=
      match p.flow with
      | some steps => decide (steps.length ≤ p.currentIndex)
      | none => false
    let p1 := unbindListeners (clearTimers p)
    let p2 := { p1 with
        overlay := false, flow := none, currentIndex := 0,
        state := .idle, currentTarget := none }
    (p2,
      (match wasPlaying with | some _ => [Effect.onEnd completed] | none => [])
        ++ (match message with | some m => [Effect.notice m] | none => []))

/-- `PlayerService.showCurrentStep`: clear previous timers and target, report
the step change, then dispatch on the step type.  `click`/`input`/`select`
(and `message` with a locator) suspend on `pollLocator`; `wait` renders and
arms the wait timer. -/
def showCurrentStep (p : PlayerSvc) : PlayerSvc × List Effect :=
  if p.flow = none || !p.overlay then (p, [])
  else
    let p1 := { clearTimers p with currentTarget := none }
    match p.flow with
    | none => (p1, [])
    | some steps =>
      match steps[p1.currentIndex]? with
      | none =>
          -- steps[currentIndex] is undefined; switch (step.type) throws
          (p1, [Effect.stepChange p1.currentIndex, Effect.crash])
      | some step =>
        let effs := [Effect.stepChange p1.currentIndex]
        match step with
        | .click _ _ =>
            ({ p1 with pending := some (.targetPoll step) }, effs)
        | .input _ _ =>
            ({ p1 with pending := some (.targetPoll step) }, effs)
        | .select _ _ _ =>
            ({ p1 with pending := some (.selectPoll step) }, effs)
        | .wait _ _ =>
            ({ p1 with waitTimeout := true }, effs ++ [Effect.render none])
        | .message _ none =>
            ({ p1 with pending := some (.messagePoll step) }, effs)
        | .message _ (some _) =>
            ({ p1 with pending := some (.messagePoll step) }, effs)

/-- `PlayerService.next`: advance the index; past the last step, stop with
the completion notice, otherwise show the new current step. -/
def PlayerSvc.next (p : PlayerSvc) : PlayerSvc × List Effect :=
  if p.state ≠ .playing || p.flow = none then (p, [])
  else
    match p.flow with
    | none => (p, [])
    | some steps =>
      let p1 := { p with currentIndex := p.currentIndex + 1 }
      if steps.length ≤ p1.currentIndex then
        p1.stop (some "🎉 引导完成！")
      else showCurrentStep p1

/-- `PlayerService.prev`: step backward while playing and not at the first
step. -/
def PlayerSvc.prev (p : PlayerSvc) : PlayerSvc × List Effect :=
  if p.state ≠ .playing || p.flow = none then (p, [])
  else if p.currentIndex = 0 then (p, [])
  else showCurrentStep { p with currentIndex := p.currentIndex - 1 }

/-- `PlayerService.handleNext` (the overlay's manual "next" button): only
`input` and `message` steps may advance manually. -/
def handleNext (p : PlayerSvc) : PlayerSvc × List Effect :=
  if p.flow = none then (p, [])
  else
    match p.flow with
    | none => (p, [])
    | some steps =>
      match steps[p.currentIndex]? with
      | none => (p, [Effect.crash])  -- step.type on undefined throws
      | some step =>
        match step with
        | .input _ _ => p.next
        | .message _ _ => p.next
        | _ => (p, [])

/-- A captured click event as seen by `handleClick`: the raw target plus the
outcome of the three `closest` probes against the plugin's own UI. -/
structure ClickEvt where
  target : Elem
  /-- `target.closest('.demo-maker-overlay')` non-null -/
  inOverlayUi : Bool := false
  /-- `target.closest('.demo-maker-editor-panel')` non-null -/
  inEditorPanel : Bool := false
  /-- `target.closest('.demo-maker-control-bar')` non-null -/
  inControlBar : Bool := false
deriving DecidableEq, Repr

/-- `PlayerService.handleClick` (capture-phase document click listener).
`domContains tgt t` models `tgt.contains(t)`. -/
def handleClick (domContains : Elem → Elem → Bool) (p : PlayerSvc)
    (evt : ClickEvt) : PlayerSvc × List Effect :=
  if p.state ≠ .playing || !p.overlay || p.flow = none then (p, [])
  else if evt.inOverlayUi || evt.inEditorPanel || evt.inControlBar then (p, [])
  else
    match p.flow with
    | none => (p, [])
    | some steps =>
      match steps[p.currentIndex]? with
      | none => (p, [Effect.crash])  -- step.type on undefined throws
      | some step =>
        match step with
        | .click _ _ =>
          match p.currentTarget with
          | some tgt =>
            if domContains tgt evt.target then (p, [Effect.scheduleNext 100])
            else (p, [Effect.suppress])
          | none => (p, [Effect.suppress])
        | _ => (p, [Effect.suppress])

/-- The select-change listener registered by `handleSelectStep`, with its
captured resolved element `el` and the step's `expectedValue`; invoked with
the event target and the selected option's `textContent`.  On a tolerant
match it removes itself and schedules `next` after 300 ms. -/
def runSelectChangeHandler (p : PlayerSvc) (el : Elem) (expectedValue : String)
    (evtTarget : Elem) (selectedOptionText : Option String) :
    PlayerSvc × List Effect :=
  if evtTarget ≠ el then (p, [])
  else
    let selectedValue := jsTrim (selectedOptionText.getD "")
    let expected := jsTrim expectedValue
    if selectedValue == expected || strIncludes selectedValue expected
        || strIncludes expected selectedValue then
      ({ p with selectChangeHandler := false }, [Effect.scheduleNext 300])
    else (p, [])

/-- Continuation of `handleTargetStep` after `await pollLocator` resolves.
The `overlay`/`flow` guard ran *before* the await and is not re-checked: if
the service was stopped meanwhile, `currentTarget` is still assigned on a
successful result, and the subsequent `this.overlay.renderStep` /
`this.flow.steps` dereference throws. -/
def completeTargetPoll (p : PlayerSvc) (step : FlowStep) (result : LocateResult) :
    PlayerSvc × List Effect :=
  let p0 := { p with pending := none }
  match result.element, result.success with
  | some el, true =>
    let p1 := { p0 with currentTarget := some el }
    if p1.overlay && p1.flow.isSome then (p1, [Effect.render (some el)])
    else (p1, [Effect.crash])
  | _, _ =>
    if p0.overlay && p0.flow.isSome then
      (p0,
        [Effect.warn "Demo Maker: 无法定位元素", Effect.render none]
          ++ (match stepLocator step with
              | some loc =>
                if tstr loc.humanDescription then
                  [Effect.notice ("请手动找到: " ++ loc.humanDescription.getD "")]
                else []
              | none => []))
    else (p0, [Effect.warn "Demo Maker: 无法定位元素", Effect.crash])

/-- Continuation of `handleSelectStep` after `await pollLocator` resolves:
like `completeTargetPoll`, but a successful render also registers the
select-change listener. -/
def completeSelectPoll (p : PlayerSvc) (step : FlowStep) (result : LocateResult) :
    PlayerSvc × List Effect :=
  let p0 := { p with pending := none }
  match result.element, result.success with
  | some el, true =>
    let p1 := { p0 with currentTarget := some el }
    if p1.overlay && p1.flow.isSome then
      ({ p1 with selectChangeHandler := true }, [Effect.render (some el)])
    else (p1, [Effect.crash])
  | _, _ =>
    if p0.overlay && p0.flow.isSome then
      (p0,
        [Effect.warn "Demo Maker: 无法定位 select 元素", Effect.render none]
          ++ (match stepLocator step with
              | some loc =>
                if tstr loc.humanDescription then
                  [Effect.notice ("请手动找到: " ++ loc.humanDescription.getD "")]
                else []
              | none => []))
    else (p0, [Effect.warn "Demo Maker: 无法定位 select 元素", Effect.crash])

/-- `PlayerService.handleTargetStep` run without interruption: the entry
guard, the awaited `pollLocator` with `{maxAttempts: 20, intervalMs: 200,
debug: true}` over the snapshot sequence `docs`, then the continuation. -/
def handleTargetStep (docs : Nat → Doc) (p : PlayerSvc) (step : FlowStep) :
    PlayerSvc × List Effect :=
  if !p.overlay || p.flow = none then (p, [])
  else
    let outcome := pollLocator docs ((stepLocator step).getD {}) 20 200 true
    completeTargetPoll p step outcome.result

/-- `PlayerService.start`: stop any active session, install flow/overlay/
listeners, report the start, and show the first step. -/
def PlayerSvc.start (p : PlayerSvc) (flow : List FlowStep) :
    PlayerSvc × List Effect :=
  let stopped := if p.state ≠ .idle then p.stop none else (p, [])
  let p1 := { stopped.1 with
      flow := some flow, currentIndex := 0, state := .playing,
      overlay := true, clickHandler := true, keyHandler := true }
  let shown := showCurrentStep p1
  (shown.1, stopped.2 ++ [Effect.onStart] ++ shown.2)

/-!
## Specification-side definitions

`specStrategyAttempts` / `specPriorityResolve` formalize §4.2 of the design
document *as written*: "attempt strategies 1–8 in the fixed priority order,
short-circuiting on the first strategy that yields a non-null element".
They are compared against the translated `resolveLocator` in claim C1.
-/

/-- The spec's strategy list, in its stated priority order, each entry
paired with what the strategy yields for this locator (a strategy whose
field is not truthily present yields nothing). -/
def specStrategyAttempts (doc : Doc) (loc : Locator) :
    List (String × Option Elem) :=
  [("ariaLabel",
      if tstr loc.ariaLabel then locateByAriaLabel doc (loc.ariaLabel.getD "")
      else none),
   ("dataType",
      if tstr loc.dataType then locateByDataType doc (loc.dataType.getD "")
      else none),
   ("settingId",
      if tstr loc.settingId then locateBySettingId doc (loc.settingId.getD "")
      else none),
   ("settingName",
      if tstr loc.settingName then
        locateBySettingName doc (loc.settingName.getD "") loc.controlType
      else none),
   ("inputAttributes",
      if tstr loc.placeholder || tstr loc.elementType then
        locateByInputAttributes doc loc.placeholder loc.elementType
      else none),
   ("textContent",
      if tstr loc.textContent then
        locateByTextContent doc (loc.textContent.getD "")
      else none),
   ("textContains",
      if tstr loc.textContains then
        locateByTextContains doc (loc.textContains.getD "")
      else none),
   ("cssSelector",
      if tstr loc.cssSelector then
        locateByCssSelector doc (loc.cssSelector.getD "")
      else none)]

/-- Resolution as the spec words it: first strategy in the priority list
yielding a non-null element wins; otherwise the `"none"` failure with the
human-description error string. -/
def specPriorityResolve (doc : Doc) (loc : Locator) : LocateResult :=
  match (specStrategyAttempts doc loc).find? (fun sr => sr.2.isSome) with
  | some (name, some el) => { element := some el, strategy := name, success := true }
  | _ =>
      { element := none, strategy := "none", success := false,
        error := some (if tstr loc.humanDescription then
            "无法定位元素: " ++ loc.humanDescription.getD ""
          else "无法定位元素") }

/-- Index stays within `[0, number of steps]` (claim C9's invariant). -/
def indexInRange (p : PlayerSvc) : Prop :=
  ∀ steps, p.flow = some steps → p.currentIndex ≤ steps.length

/-!
## Concrete instances

Concrete documents, locators, steps and player states used by the
counterexamples and witnesses below.
-/

/-- A document with one element carrying the aria-label and a different
element whose text content is "Close". -/
def docC1 : Doc :=
  { ariaLabelQuery := fun _ => some ⟨1⟩,
    textCandidatesDoc := [⟨2⟩],
    textOf := fun _ => "Close" }

/-- A locator populating both the aria-label and the exact-text strategy. -/
def locC1 : Locator := { ariaLabel := some "Close", textContent := some "Close" }

/-- A document with no modal container but a matching aria-label element. -/
def docC2 : Doc := { ariaLabelQuery := fun _ => some ⟨1⟩ }

/-- A locator gated on an open modal whose aria-label strategy would
succeed. -/
def locC2 : Locator :=
  { ariaLabel := some "Open", context := some { modal := some true } }

/-- A locator that matches nothing in an empty document. -/
def locC3 : Locator :=
  { ariaLabel := some "Missing button", humanDescription := some "目标按钮" }

/-- A click step around `locC3`. -/
def stepC3 : FlowStep := .click "s1" locC3

/-- A playing service showing `stepC3`. -/
def pC3 : PlayerSvc :=
  { flow := some [stepC3], currentIndex := 0, state := .playing,
    clickHandler := true, keyHandler := true, overlay := true }

/-- A locator for the C4 scenario. -/
def locC4 : Locator := { ariaLabel := some "Open settings" }

/-- A click step around `locC4`. -/
def stepC4 : FlowStep := .click "s2" locC4

/-- A playing service with an in-flight `pollLocator` for `stepC4`. -/
def pC4 : PlayerSvc :=
  { flow := some [stepC4], currentIndex := 0, state := .playing,
    clickHandler := true, keyHandler := true, overlay := true,
    pending := some (.targetPoll stepC4) }

/-- A select step expecting the option text "Dark". -/
def stepSel : FlowStep :=
  .select "s3" { settingName := some "Theme", controlType := some .select } "Dark"

/-- A trailing message step. -/
def stepMsg : FlowStep := .message "s4" none

/-- A playing service on the select step with its change listener armed. -/
def pC6 : PlayerSvc :=
  { flow := some [stepSel, stepMsg], currentIndex := 0, state := .playing,
    clickHandler := true, keyHandler := true, selectChangeHandler := true,
    overlay := true, currentTarget := some ⟨3⟩ }

/-- A locator for the C7 input step. -/
def locC7 : Locator := { placeholder := some "Search" }

/-- An input step around `locC7`. -/
def stepC7 : FlowStep := .input "s5" locC7

/-- A playing service on the input step with a resolved target. -/
def pC7 : PlayerSvc :=
  { flow := some [stepC7, stepMsg], currentIndex := 0, state := .playing,
    clickHandler := true, keyHandler := true, overlay := true,
    currentTarget := some ⟨1⟩ }

/-- A DOM containment relation in which element 1 contains elements 1
and 2. -/
def containsC7 : Elem → Elem → Bool :=
  fun a b => a == ⟨1⟩ && (b == ⟨1⟩ || b == ⟨2⟩)

/-- A click on element 2 (inside element 1), outside the plugin's own UI. -/
def evtC7 : ClickEvt := { target := ⟨2⟩ }

/-- A document whose `querySelector` throws on every selector string. -/
def docC8 : Doc := { cssQuery := fun _ => .error () }

/-- A locator whose only populated strategy is a malformed structural
selector. -/
def locC8 : Locator := { cssSelector := some "div[[[" }

/-- A playing service on the last step of a two-step flow. -/
def pC9 : PlayerSvc :=
  { flow := some [stepSel, stepMsg], currentIndex := 1, state := .playing,
    clickHandler := true, keyHandler := true, overlay := true }

/-- A first-segment element with an id, a meaningful class, and input
attributes. -/
def nodeC10 : DomNode :=
  { tag := "input", idAttr := "foo", classList := ["bar"],
    placeholderAttr := some "p", typeAttr := some "text", ordinal := some 1 }

/-- A first-segment input element with meaningful classes and a
placeholder, and no id. -/
def nodeC10b : DomNode :=
  { tag := "input", idAttr := "", classList := ["setting-input", "wide"],
    placeholderAttr := some "Search files", typeAttr := some "text",
    ordinal := some 1 }

/-!
## Auxiliary lemmas
-/

/-- `showCurrentStep` never changes the index, state or flow. -/
lemma showCurrentStep_preserves (p : PlayerSvc) :
    (showCurrentStep p).1.currentIndex = p.currentIndex ∧
    (showCurrentStep p).1.state = p.state ∧
    (showCurrentStep p).1.flow = p.flow := by
  unfold showCurrentStep clearTimers
  dsimp only
  repeat' split <;> try exact ⟨rfl, rfl, rfl⟩

/-- `stop` either does nothing (already idle) or resets flow, index and
state. -/
lemma stop_cases (p : PlayerSvc) (m : Option String) :
    ((p.stop m).1 = p ∧ p.state = .idle) ∨
    ((p.stop m).1.flow = none ∧ (p.stop m).1.currentIndex = 0 ∧
     (p.stop m).1.state = .idle) := by
  unfold PlayerSvc.stop
  split
  · rename_i h
    exact Or.inl ⟨rfl, h⟩
  · exact Or.inr ⟨rfl, rfl, rfl⟩

/-- `stop` never touches the in-flight poll continuation: the only timer
fields it can clear are `waitTimeout` and the never-assigned `pollTimeout`. -/
lemma stop_pending (p : PlayerSvc) (m : Option String) :
    ((p.stop m).1).pending = p.pending := by
  unfold PlayerSvc.stop clearTimers unbindListeners
  split <;> rfl

/-- Unfolding of `prev` into its guard. -/
lemma prev_eq (p : PlayerSvc) :
    p.prev =
      if p.state = .playing ∧ p.flow ≠ none ∧ 0 < p.currentIndex then
        showCurrentStep { p with currentIndex := p.currentIndex - 1 }
      else (p, []) := by
  unfold PlayerSvc.prev
  by_cases h1 : p.state = .playing <;> by_cases h2 : p.flow = none <;>
    by_cases h3 : p.currentIndex = 0 <;>
    simp [h1, h2, h3, Nat.pos_iff_ne_zero]

/-- Unfolding of `next` into its guard. -/
lemma next_eq (p : PlayerSvc) :
    p.next =
      match p.flow with
      | none => (p, [])
      | some steps =>
        if p.state = .playing then
          if steps.length ≤ p.currentIndex + 1 then
            PlayerSvc.stop { p with currentIndex := p.currentIndex + 1 }
              (some "🎉 引导完成！")
          else showCurrentStep { p with currentIndex := p.currentIndex + 1 }
        else (p, []) := by
  unfold PlayerSvc.next
  cases hf : p.flow with
  | none => simp
  | some steps =>
      by_cases h1 : p.state = .playing <;>
        by_cases h2 : steps.length ≤ p.currentIndex + 1 <;>
        simp [h1, h2]

/-- `handleClick` never changes the service state, only emits effects. -/
lemma handleClick_state (dc : Elem → Elem → Bool) (p : PlayerSvc) (evt : ClickEvt) :
    (handleClick dc p evt).1 = p := by
  unfold handleClick
  repeat' split <;> try rfl

/-- The select-change listener never changes the index or flow. -/
lemma runSelect_preserves (p : PlayerSvc) (el : Elem) (ev : String) (t : Elem)
    (s : Option String) :
    (runSelectChangeHandler p el ev t s).1.currentIndex = p.currentIndex ∧
    (runSelectChangeHandler p el ev t s).1.flow = p.flow := by
  unfold runSelectChangeHandler
  dsimp only
  split
  · exact ⟨rfl, rfl⟩
  · split
    · exact ⟨rfl, rfl⟩
    · exact ⟨rfl, rfl⟩

/-- The target-poll continuation never changes the index or flow. -/
lemma completeTargetPoll_preserves (p : PlayerSvc) (step : FlowStep)
    (r : LocateResult) :
    (completeTargetPoll p step r).1.currentIndex = p.currentIndex ∧
    (completeTargetPoll p step r).1.flow = p.flow := by
  unfold completeTargetPoll
  dsimp only
  split
  · split
    · exact ⟨rfl, rfl⟩
    · exact ⟨rfl, rfl⟩
  · split
    · exact ⟨rfl, rfl⟩
    · exact ⟨rfl, rfl⟩

/-- The select-poll continuation never changes the index or flow. -/
lemma completeSelectPoll_preserves (p : PlayerSvc) (step : FlowStep)
    (r : LocateResult) :
    (completeSelectPoll p step r).1.currentIndex = p.currentIndex ∧
    (completeSelectPoll p step r).1.flow = p.flow := by
  unfold completeSelectPoll
  dsimp only
  split
  · split
    · exact ⟨rfl, rfl⟩
    · exact ⟨rfl, rfl⟩
  · split
    · exact ⟨rfl, rfl⟩
    · exact ⟨rfl, rfl⟩

/-- Stopping a non-idle service keeps the index in range (the flow is
cleared). -/
lemma stopIR_of_ne (q : PlayerSvc) (m : Option String) (hne : q.state ≠ .idle) :
    indexInRange (q.stop m).1 := by
  rcases stop_cases q m with ⟨_, hidle⟩ | ⟨hf, _, _⟩
  · exact absurd hidle hne
  · intro steps h
    rw [hf] at h
    exact absurd h (by simp)

/-- Stopping a non-idle service lands in the idle state at index 0 with no
flow. -/
lemma stop_nonidle_result (q : PlayerSvc) (m : Option String)
    (hne : q.state ≠ .idle) :
    (q.stop m).1.state = .idle ∧ (q.stop m).1.currentIndex = 0 ∧
    (q.stop m).1.flow = none := by
  rcases stop_cases q m with ⟨_, hidle⟩ | ⟨hf, hz, hs⟩
  · exact absurd hidle hne
  · exact ⟨hs, hz, hf⟩

/-- When every resolution attempt fails, `tryLocate` runs its remaining
budget to exhaustion, scheduling one timer per retry, and resolves with the
last failed result. -/
lemma tryLocate_all_fail (docs : Nat → Doc) (loc : Locator) (maxAttempts : Nat)
    (debug : Bool)
    (hfail : ∀ k d, (resolveLocator (docs k) loc d).success = false) :
    ∀ remaining attempts timers, 1 ≤ remaining →
      tryLocate docs loc maxAttempts debug attempts timers remaining =
        { result := resolveLocator (docs (attempts + remaining)) loc
            (debug && (attempts + remaining == maxAttempts)),
          attemptsUsed := attempts + remaining,
          timersScheduled := timers + (remaining - 1) } := by
  intro remaining
  induction remaining with
  | zero => omega
  | succ r ih =>
    intro attempts timers _
    cases r with
    | zero =>
        unfold tryLocate
        simp [hfail]
    | succ r2 =>
        unfold tryLocate
        simp only [hfail, Bool.false_eq_true, if_false]
        rw [ih (attempts + 1) (timers + 1) (by omega)]
        have h1 : attempts + 1 + (r2 + 1) = attempts + (r2 + 1 + 1) := by omega
        have h2 : timers + 1 + (r2 + 1 - 1) = timers + (r2 + 1 + 1 - 1) := by omega
        rw [h1, h2]

/-- Below the first path segment the svg icon class never influences the
selector parts. -/
lemma buildParts_svg_irrelevant (chain : List DomNode) :
    ∀ (svg svg2 : Option String) (d : Nat),
      buildCssSelectorParts svg chain d false =
        buildCssSelectorParts svg2 chain d false := by
  induction chain with
  | nil => intro svg svg2 d; rfl
  | cons node rest ih =>
    intro svg svg2 d
    simp only [buildCssSelectorParts]
    simp [ih svg svg2]

/-- First-segment shape for an id-less input element with no meaningful
classes and a truthy placeholder: the placeholder attribute selector,
independent of any detected svg icon class. -/
lemma buildParts_noclass_first (node : DomNode) (rest : List DomNode)
    (svgO : Option String) (hid : node.idAttr = "")
    (hmc : meaningfulClasses node = [])
    (htag : (node.tag == "input" || node.tag == "textarea") = true)
    (hph : tstr node.placeholderAttr = true) :
    buildCssSelectorParts svgO (node :: rest) 0 true =
      (node.tag ++ "[placeholder=\"" ++ cssEscape (node.placeholderAttr.getD "")
          ++ "\"]")
        :: buildCssSelectorParts svgO rest 1 false := by
  simp only [buildCssSelectorParts]
  rw [if_neg (by omega), if_neg (by rw [hid]; decide),
      if_neg (by rw [hmc]; simp)]
  simp [htag, hph]

/-!
## Claims
-/

/-- C1: for every Locator whose context check passes, `resolveLocator`
attempts the strategies in the fixed priority order ariaLabel, dataType,
settingId, settingName, inputAttributes, textContent, textContains,
cssSelector, short-circuiting on the first strategy yielding a non-null
element (it coincides with the spec's priority fold `specPriorityResolve`,
whose result carries at most one element); in particular, whenever the
ariaLabel strategy and the exact-text strategy would each match some
different element, the result is the ariaLabel match with
strategy `"ariaLabel"` and `success = true`. -/
theorem c1_resolver_priority (doc : Doc) (loc : Locator) (debug : Bool)
    (hctx : ∀ ctx, loc.context = some ctx → checkContext doc ctx = true) :
    resolveLocator doc loc debug = specPriorityResolve doc loc ∧
    (∀ e1 e2, tstr loc.ariaLabel = true →
      locateByAriaLabel doc (loc.ariaLabel.getD "") = some e1 →
      tstr loc.textContent = true →
      locateByTextContent doc (loc.textContent.getD "") = some e2 →
      e1 ≠ e2 →
      resolveLocator doc loc debug =
        { element := some e1, strategy := "ariaLabel", success := true }) := by
  have hguard : (loc.context.isSome && !checkContext doc (loc.context.getD {})) = false := by
    cases hc : loc.context with
    | none => rfl
    | some ctx => simp [hctx ctx hc]
  constructor
  · unfold resolveLocator specPriorityResolve specStrategyAttempts
    rw [hguard]
    simp only [Bool.false_eq_true, if_false]
    cases h1 : (if tstr loc.ariaLabel = true then locateByAriaLabel doc (loc.ariaLabel.getD "") else none) with
    | some e => simp [List.find?, h1]
    | none =>
    cases h2 : (if tstr loc.dataType = true then locateByDataType doc (loc.dataType.getD "") else none) with
    | some e => simp [List.find?, h1, h2]
    | none =>
    cases h3 : (if tstr loc.settingId = true then locateBySettingId doc (loc.settingId.getD "") else none) with
    | some e => simp [List.find?, h1, h2, h3]
    | none =>
    cases h4 : (if tstr loc.settingName = true then locateBySettingName doc (loc.settingName.getD "") loc.controlType else none) with
    | some e => simp [List.find?, h1, h2, h3, h4]
    | none =>
    cases h5 : (if (tstr loc.placeholder || tstr loc.elementType) = true then locateByInputAttributes doc loc.placeholder loc.elementType else none) with
    | some e => simp [List.find?, h1, h2, h3, h4, h5]
    | none =>
    cases h6 : (if tstr loc.textContent = true then locateByTextContent doc (loc.textContent.getD "") else none) with
    | some e => simp [List.find?, h1, h2, h3, h4, h5, h6]
    | none =>
    cases h7 : (if tstr loc.textContains = true then locateByTextContains doc (loc.textContains.getD "") else none) with
    | some e => simp [List.find?, h1, h2, h3, h4, h5, h6, h7]
    | none =>
    cases h8 : (if tstr loc.cssSelector = true then locateByCssSelector doc (loc.cssSelector.getD "") else none) with
    | some e => simp [List.find?, h1, h2, h3, h4, h5, h6, h7, h8]
    | none => simp [List.find?, h1, h2, h3, h4, h5, h6, h7, h8]
  · intro e1 e2 ha hla _ _ _
    unfold resolveLocator
    rw [hguard]
    simp [ha, hla]

/-- C1 witness: in `docC1`, where the aria-label strategy matches element 1
and the exact-text strategy matches element 2, resolution returns the
aria-label match. -/
theorem c1_resolver_priority_witness :
    resolveLocator docC1 locC1 false = specPriorityResolve docC1 locC1 ∧
    resolveLocator docC1 locC1 false =
      { element := some ⟨1⟩, strategy := "ariaLabel", success := true } :=
  ⟨(c1_resolver_priority docC1 locC1 false
      (fun _ h => Option.noConfusion h)).1,
   (c1_resolver_priority docC1 locC1 false
      (fun _ h => Option.noConfusion h)).2 ⟨1⟩ ⟨2⟩ rfl rfl rfl (by decide)
      (by decide)⟩

/-- C2: a Locator whose context demands `modal = true` fails with the
`"context"` strategy, a null element and no strategy attempted, whenever no
`.modal-container` exists — regardless of the locator's other fields. -/
theorem c2_context_modal_gate (doc : Doc) (loc : Locator) (debug : Bool)
    (ctx : LocatorContext) (hc : loc.context = some ctx)
    (hm : ctx.modal = some true) (hdoc : doc.modalContainer = none) :
    resolveLocator doc loc debug =
      { element := none, strategy := "context", success := false,
        error := some "上下文条件不满足" } := by
  have hcc : checkContext doc ctx = false := by
    unfold checkContext
    rw [hm, hdoc]
    simp
  unfold resolveLocator
  rw [hc]
  simp [hcc]

/-- C2 witness: in a modal-less document the gated locator fails with the
context strategy even though its aria-label strategy alone would succeed. -/
theorem c2_context_modal_gate_witness :
    resolveLocator docC2 { locC2 with context := none } false =
      { element := some ⟨1⟩, strategy := "ariaLabel", success := true } ∧
    resolveLocator docC2 locC2 false =
      { element := none, strategy := "context", success := false,
        error := some "上下文条件不满足" } :=
  ⟨by decide,
   c2_context_modal_gate docC2 locC2 false { modal := some true } rfl rfl rfl⟩

/-- C3 counterexample: a click step whose locator matches nothing on all 20
polling attempts does *not* halt playback — the service stays in the
`playing` state (the claim says playback stops); the index does not
advance and a warning plus a manual-fallback notice are emitted instead. -/
theorem c3_counterexample :
    (pollLocator (fun _ => {}) locC3 20 200 true).result.success = false ∧
    (pollLocator (fun _ => {}) locC3 20 200 true).attemptsUsed = 20 ∧
    (handleTargetStep (fun _ => {}) pC3 stepC3).1.state = PlayerState.playing ∧
    (handleTargetStep (fun _ => {}) pC3 stepC3).1.state ≠ PlayerState.idle ∧
    (handleTargetStep (fun _ => {}) pC3 stepC3).1.currentIndex = 0 ∧
    (handleTargetStep (fun _ => {}) pC3 stepC3).2 =
      [Effect.warn "Demo Maker: 无法定位元素", Effect.render none,
       Effect.notice "请手动找到: 目标按钮"] := by
  decide

/-- C3 (amended): for every click step whose Locator matches nothing on all
20 polling attempts at 200 ms interval, playback reports the failure (a
console warning, an un-highlighted render, and a "please find manually"
notice when the locator carries a human description) and the current step
index does not advance — but playback does not halt: the state, flow and
index are untouched and only the pending-poll marker is consumed. -/
theorem c3_poll_exhaustion_no_halt (docs : Nat → Doc) (p : PlayerSvc)
    (id : String) (loc : Locator)
    (hover : p.overlay = true) (hflow : ∃ steps, p.flow = some steps)
    (hfail : ∀ k d, (resolveLocator (docs k) loc d).success = false) :
    handleTargetStep docs p (.click id loc) =
      ({ p with pending := none },
       [Effect.warn "Demo Maker: 无法定位元素", Effect.render none]
         ++ (if tstr loc.humanDescription then
               [Effect.notice ("请手动找到: " ++ loc.humanDescription.getD "")]
             else [])) ∧
    (pollLocator docs loc 20 200 true).attemptsUsed = 20 := by
  obtain ⟨steps, hsteps⟩ := hflow
  have hpoll := tryLocate_all_fail docs loc 20 true hfail 20 0 0 (by omega)
  have hpoll2 : pollLocator docs loc 20 200 true =
      { result := resolveLocator (docs 20) loc true,
        attemptsUsed := 20, timersScheduled := 19 } := by
    unfold pollLocator
    rw [hpoll]
    simp
  constructor
  · unfold handleTargetStep
    dsimp only [stepLocator, Option.getD]
    rw [hpoll2]
    unfold completeTargetPoll
    cases hel : (resolveLocator (docs 20) loc true).element with
    | none => simp [hsteps, hover, hfail 20 true, hel, stepLocator, Option.getD]
    | some e => simp [hsteps, hover, hfail 20 true, hel, stepLocator, Option.getD]
  · rw [hpoll2]

/-- C3 witness: the amended behavior at the concrete playing service `pC3`
over a document in which nothing resolves. -/
theorem c3_poll_exhaustion_no_halt_witness :
    handleTargetStep (fun _ => {}) pC3 stepC3 =
      ({ pC3 with pending := none },
       [Effect.warn "Demo Maker: 无法定位元素", Effect.render none,
        Effect.notice "请手动找到: 目标按钮"]) ∧
    (pollLocator (fun _ => {}) locC3 20 200 true).attemptsUsed = 20 :=
  c3_poll_exhaustion_no_halt (fun _ => {}) pC3 "s1" locC3 rfl
    ⟨[stepC3], rfl⟩ (fun _ _ => rfl)

/-- C4: `stop` clears the tracked timers and listeners, but it cannot reach
the retry timer inside an in-flight `pollLocator` promise (the `pollTimeout`
field it clears is never assigned anywhere in the source): the pending poll
survives cancellation, and when a later attempt succeeds, its continuation
still mutates `currentTarget` on the stopped (idle) service and then throws
on the nulled overlay — background work mutates state after cancellation,
contradicting the claim. -/
theorem c4_stop_leaves_inflight_poll :
    (∀ (p : PlayerSvc) (m : Option String), ((p.stop m).1).pending = p.pending) ∧
    ((pC4.stop (some "已退出引导")).1.state = PlayerState.idle ∧
     (pC4.stop (some "已退出引导")).1.clickHandler = false ∧
     (pC4.stop (some "已退出引导")).1.keyHandler = false ∧
     (pC4.stop (some "已退出引导")).1.selectChangeHandler = false ∧
     (pC4.stop (some "已退出引导")).1.waitTimeout = false ∧
     (pC4.stop (some "已退出引导")).1.pollTimeout = false ∧
     (pC4.stop (some "已退出引导")).1.pending = some (.targetPoll stepC4) ∧
     (pC4.stop (some "已退出引导")).1.currentTarget = none ∧
     (completeTargetPoll (pC4.stop (some "已退出引导")).1 stepC4
        { element := some ⟨7⟩, strategy := "ariaLabel", success := true }).1.currentTarget
        = some ⟨7⟩ ∧
     (completeTargetPoll (pC4.stop (some "已退出引导")).1 stepC4
        { element := some ⟨7⟩, strategy := "ariaLabel", success := true }).2
        = [Effect.crash]) := by
  constructor
  · exact stop_pending
  · decide

/-- C5: running the polling resolver with `maxAttempts = 1` is behaviorally
identical to one direct `resolveLocator` call on the current document — the
same `LocateResult`, one attempt, and no timer scheduled — for every
document sequence, locator, interval and debug flag. -/
theorem c5_poll_single_attempt (docs : Nat → Doc) (loc : Locator)
    (intervalMs : Nat) (debug : Bool) :
    pollLocator docs loc 1 intervalMs debug =
      { result := resolveLocator (docs 1) loc debug, attemptsUsed := 1,
        timersScheduled := 0 } := by
  unfold pollLocator tryLocate
  simp

/-- C6: for a resolved select step, a selection-change event on the resolved
element advances the step (after the 300 ms scheduled `next`, removing the
listener) exactly when the newly selected option's trimmed text and the
step's trimmed `expectedValue` satisfy the three-way tolerant rule: exact
equality, selected-contains-expected, or expected-contains-selected. -/
theorem c6_select_tolerant_match (p : PlayerSvc) (el : Elem) (expected : String)
    (selText : Option String) (steps : List FlowStep)
    (hplay : p.state = .playing) (hflow : p.flow = some steps)
    (hover : p.overlay = true) (hlt : p.currentIndex + 1 < steps.length) :
    ((runSelectChangeHandler p el expected el selText).1.next.1.currentIndex
        = p.currentIndex + 1
      ∧ (runSelectChangeHandler p el expected el selText).2
        = [Effect.scheduleNext 300]
      ∧ (runSelectChangeHandler p el expected el selText).1.selectChangeHandler
        = false)
      ↔ (jsTrim (selText.getD "") == jsTrim expected
         || strIncludes (jsTrim (selText.getD "")) (jsTrim expected)
         || strIncludes (jsTrim expected) (jsTrim (selText.getD ""))) = true := by
  cases hm : (jsTrim (selText.getD "") == jsTrim expected
      || strIncludes (jsTrim (selText.getD "")) (jsTrim expected)
      || strIncludes (jsTrim expected) (jsTrim (selText.getD ""))) with
  | false =>
      have hrun : runSelectChangeHandler p el expected el selText = (p, []) := by
        unfold runSelectChangeHandler
        simp [hm]
      rw [hrun]
      simp
  | true =>
      simp only [iff_true]
      have hrun : runSelectChangeHandler p el expected el selText =
          ({ p with selectChangeHandler := false }, [Effect.scheduleNext 300]) := by
        unfold runSelectChangeHandler
        simp [hm]
      rw [hrun]
      refine ⟨?_, rfl, rfl⟩
      unfold PlayerSvc.next
      have hnot : ¬(steps.length ≤ p.currentIndex + 1) := by omega
      simp only [hplay, hflow]
      simp [hnot, (showCurrentStep_preserves _).1]

/-- C6 witness: expected value "Dark" with selected option text "Dark mode"
matches via the tolerant rule and the step advances by one. -/
theorem c6_select_tolerant_match_witness :
    ((runSelectChangeHandler pC6 ⟨3⟩ "Dark" ⟨3⟩ (some "Dark mode")).1.next.1.currentIndex
        = pC6.currentIndex + 1
      ∧ (runSelectChangeHandler pC6 ⟨3⟩ "Dark" ⟨3⟩ (some "Dark mode")).2
        = [Effect.scheduleNext 300]
      ∧ (runSelectChangeHandler pC6 ⟨3⟩ "Dark" ⟨3⟩ (some "Dark mode")).1.selectChangeHandler
        = false) :=
  (c6_select_tolerant_match pC6 ⟨3⟩ "Dark" (some "Dark mode") [stepSel, stepMsg]
    rfl rfl rfl (by decide)).mpr (by decide)

/-- C7 counterexample: on an input step, a click *inside* the resolved
element (element 2, contained in the resolved element 1) is captured and
canceled, not allowed through — the claim's "identical to click" suppression
is false for input steps. -/
theorem c7_counterexample :
    containsC7 ⟨1⟩ ⟨2⟩ = true ∧
    pC7.currentTarget = some ⟨1⟩ ∧
    handleClick containsC7 pC7 evtC7 = (pC7, [Effect.suppress]) := by
  decide

/-- C7 (amended): for every input step whose target was resolved, clicks on
the plugin's own overlay/editor/control-bar surfaces are ignored, and every
other click — whether inside or outside the resolved element — is captured
and canceled; the step never auto-advances on interaction and advances only
through the manual "next" affordance, which for an input step moves the
index forward by one while staying in the playing state. -/
theorem c7_input_suppression (domContains : Elem → Elem → Bool) (p : PlayerSvc)
    (evt : ClickEvt) (steps : List FlowStep) (id : String) (loc : Locator)
    (hplay : p.state = .playing) (hover : p.overlay = true)
    (hflow : p.flow = some steps)
    (hstep : steps[p.currentIndex]? = some (.input id loc))
    (hui : evt.inOverlayUi = false) (hed : evt.inEditorPanel = false)
    (hcb : evt.inControlBar = false) :
    handleClick domContains p evt = (p, [Effect.suppress]) ∧
    (p.currentIndex + 1 < steps.length →
      (handleNext p).1.currentIndex = p.currentIndex + 1 ∧
      (handleNext p).1.state = .playing) := by
  constructor
  · unfold handleClick
    simp [hplay, hover, hflow, hui, hed, hcb, hstep]
  · intro hlt
    unfold handleNext PlayerSvc.next
    have hnot : ¬(steps.length ≤ p.currentIndex + 1) := by omega
    simp [hplay, hflow, hstep, hnot, (showCurrentStep_preserves _).1,
      (showCurrentStep_preserves _).2.1]

/-- C7 witness: a click on the resolved element itself is suppressed on the
input step, and the manual next affordance advances the step. -/
theorem c7_input_suppression_witness :
    handleClick containsC7 pC7 { target := ⟨1⟩ } = (pC7, [Effect.suppress]) ∧
    ((handleNext pC7).1.currentIndex = pC7.currentIndex + 1 ∧
     (handleNext pC7).1.state = .playing) :=
  ⟨(c7_input_suppression containsC7 pC7 { target := ⟨1⟩ } [stepC7, stepMsg]
      "s5" locC7 rfl rfl rfl (by decide) rfl rfl rfl).1,
   (c7_input_suppression containsC7 pC7 { target := ⟨1⟩ } [stepC7, stepMsg]
      "s5" locC7 rfl rfl rfl (by decide) rfl rfl rfl).2 (by decide)⟩

/-- C8: a structural selector on which `document.querySelector` throws is
caught locally: the strategy yields null, and resolution proceeds exactly as
if the `cssSelector` field were absent (falling through to the overall
failure when nothing else matches) — the error never escapes
`resolveLocator`. -/
theorem c8_malformed_selector_caught (doc : Doc) (loc : Locator) (debug : Bool)
    (herr : doc.cssQuery (loc.cssSelector.getD "") = .error ()) :
    locateByCssSelector doc (loc.cssSelector.getD "") = none ∧
    resolveLocator doc loc debug =
      resolveLocator doc { loc with cssSelector := none } debug := by
  have hnone : locateByCssSelector doc (loc.cssSelector.getD "") = none := by
    unfold locateByCssSelector
    rw [herr]
  refine ⟨hnone, ?_⟩
  unfold resolveLocator
  simp only [hnone]
  simp [tstr]

/-- C8 witness: with a throwing `querySelector` and only the malformed
structural strategy populated, resolution ends in the ordinary `"none"`
failure, not a crash. -/
theorem c8_malformed_selector_caught_witness :
    docC8.cssQuery (locC8.cssSelector.getD "") = .error () ∧
    locateByCssSelector docC8 (locC8.cssSelector.getD "") = none ∧
    resolveLocator docC8 locC8 false =
      resolveLocator docC8 { locC8 with cssSelector := none } false ∧
    resolveLocator docC8 locC8 false =
      { element := none, strategy := "none", success := false,
        error := some "无法定位元素" } :=
  ⟨rfl,
   (c8_malformed_selector_caught docC8 locC8 false rfl).1,
   (c8_malformed_selector_caught docC8 locC8 false rfl).2,
   by decide⟩

/-- C9: the playback state machine keeps the current step index within
`[0, number of steps]` under every modelled operation; `prev` decrements the
index by exactly one only when the state is `playing` and the index is
strictly positive, and otherwise changes nothing; `next` past the last step
transitions to the idle terminal state (index 0) rather than leaving the
index out of range. -/
theorem c9_index_machine (p : PlayerSvc) (hinv : indexInRange p) :
    (p.prev.1.currentIndex ≠ p.currentIndex →
      p.state = .playing ∧ 0 < p.currentIndex ∧
      p.prev.1.currentIndex + 1 = p.currentIndex) ∧
    (¬(p.state = .playing ∧ 0 < p.currentIndex) → p.prev = (p, [])) ∧
    (∀ steps, p.state = .playing → p.flow = some steps →
      steps.length ≤ p.currentIndex + 1 →
      p.next.1.state = .idle ∧ p.next.1.currentIndex = 0) ∧
    (∀ m, indexInRange (p.stop m).1) ∧
    indexInRange p.next.1 ∧
    indexInRange p.prev.1 ∧
    indexInRange (handleNext p).1 ∧
    (∀ dc evt, indexInRange (handleClick dc p evt).1) ∧
    (∀ fl, indexInRange (p.start fl).1) ∧
    indexInRange (showCurrentStep p).1 ∧
    (∀ el ev t s, indexInRange (runSelectChangeHandler p el ev t s).1) ∧
    (∀ step r, indexInRange (completeTargetPoll p step r).1) ∧
    (∀ step r, indexInRange (completeSelectPoll p step r).1) := by
  have hstopIR : ∀ (q : PlayerSvc), indexInRange q → ∀ m, indexInRange (q.stop m).1 := by
    intro q hq m
    rcases stop_cases q m with ⟨heq, _⟩ | ⟨hf, _, _⟩
    · rw [heq]; exact hq
    · intro steps h
      rw [hf] at h
      exact absurd h (by simp)
  have hshowIR : ∀ (q : PlayerSvc), indexInRange q → indexInRange (showCurrentStep q).1 := by
    intro q hq steps h
    obtain ⟨hidx, _, hflow⟩ := showCurrentStep_preserves q
    rw [hidx]
    rw [hflow] at h
    exact hq steps h
  have hprevIR : indexInRange p.prev.1 := by
    rw [prev_eq]
    split
    · apply hshowIR
      intro steps h
      have hb := hinv steps h
      show p.currentIndex - 1 ≤ steps.length
      omega
    · exact hinv
  have hnextIR : indexInRange p.next.1 := by
    rw [next_eq]
    cases hf : p.flow with
    | none => exact hinv
    | some steps =>
      by_cases h1 : p.state = .playing
      · by_cases h2 : steps.length ≤ p.currentIndex + 1
        · simp only [h1, h2, if_true]
          exact stopIR_of_ne _ _ (by simp [h1])
        · simp only [h1, h2, if_true, if_false]
          apply hshowIR
          intro steps2 h3
          have h4 : some steps = some steps2 := h3
          have h5 : steps = steps2 := by injection h4
          subst h5
          show p.currentIndex + 1 ≤ steps.length
          omega
      · simp only [h1, if_false]
        exact hinv
  have hprevChange : p.prev.1.currentIndex ≠ p.currentIndex →
      p.state = .playing ∧ 0 < p.currentIndex ∧
      p.prev.1.currentIndex + 1 = p.currentIndex := by
    rw [prev_eq]
    split
    · rename_i hc
      intro _
      obtain ⟨hidx, _, _⟩ :=
        showCurrentStep_preserves { p with currentIndex := p.currentIndex - 1 }
      rw [hidx]
      refine ⟨hc.1, hc.2.2, ?_⟩
      show p.currentIndex - 1 + 1 = p.currentIndex
      omega
    · intro hne
      exact absurd rfl hne
  have hprevNone : ¬(p.state = .playing ∧ 0 < p.currentIndex) → p.prev = (p, []) := by
    intro hn
    rw [prev_eq]
    rw [if_neg]
    intro hc
    exact hn ⟨hc.1, hc.2.2⟩
  have hnextEnd : ∀ steps, p.state = .playing → p.flow = some steps →
      steps.length ≤ p.currentIndex + 1 →
      p.next.1.state = .idle ∧ p.next.1.currentIndex = 0 := by
    intro steps h1 hf h2
    rw [next_eq, hf]
    simp only [h1, h2, if_true]
    constructor
    · exact (stop_nonidle_result _ _ (by simp [h1])).1
    · exact (stop_nonidle_result _ _ (by simp [h1])).2.1
  have hhnIR : indexInRange (handleNext p).1 := by
    unfold handleNext
    by_cases hf : p.flow = none
    · rw [if_pos hf]
      exact hinv
    · rw [if_neg hf]
      cases hf2 : p.flow with
      | none => exact absurd hf2 hf
      | some steps =>
        dsimp only
        cases hg : steps[p.currentIndex]? with
        | none => exact hinv
        | some step =>
          cases step with
          | click id loc => exact hinv
          | input id loc => exact hnextIR
          | select id loc ev => exact hinv
          | wait id d => exact hinv
          | message id loc => exact hnextIR
  refine ⟨hprevChange, hprevNone, hnextEnd, hstopIR p hinv, hnextIR, hprevIR, hhnIR,
    ?_, ?_, hshowIR p hinv, ?_, ?_, ?_⟩
  · intro dc evt
    rw [handleClick_state]
    exact hinv
  · intro fl
    unfold PlayerSvc.start
    dsimp only
    intro steps h
    rw [(showCurrentStep_preserves _).1]
    exact Nat.zero_le _
  · intro el ev t st steps h
    obtain ⟨hidx, hflow⟩ := runSelect_preserves p el ev t st
    rw [hidx]
    rw [hflow] at h
    exact hinv steps h
  · intro step r steps h
    obtain ⟨hidx, hflow⟩ := completeTargetPoll_preserves p step r
    rw [hidx]
    rw [hflow] at h
    exact hinv steps h
  · intro step r steps h
    obtain ⟨hidx, hflow⟩ := completeSelectPoll_preserves p step r
    rw [hidx]
    rw [hflow] at h
    exact hinv steps h

/-- C9 witness: on the last step of a two-step flow, `next` stops the
playback: idle terminal state with the index reset to 0. -/
theorem c9_index_machine_witness :
    pC9.next.1.state = PlayerState.idle ∧ pC9.next.1.currentIndex = 0 :=
  (c9_index_machine pC9
      (by intro steps h; injection h with h; rw [← h]; decide)).2.2.1
    [stepSel, stepMsg] rfl rfl (by decide)

/-- C10 counterexample: a first-segment element with an id, a meaningful
class (`bar`), a detected svg icon class and an input placeholder produces
just `#foo` — neither the `:has()` icon constraint nor the placeholder
attribute is appended, contradicting the claim's "both are appended
together" for elements with at least one meaningful class. -/
theorem c10_counterexample :
    meaningfulClasses nodeC10 = ["bar"] ∧
    nodeC10.tag = "input" ∧
    tstr nodeC10.placeholderAttr = true ∧
    buildCssSelector [nodeC10] (some "lucide-x") = "#foo" ∧
    strIncludes (buildCssSelector [nodeC10] (some "lucide-x")) ":has(" = false ∧
    strIncludes (buildCssSelector [nodeC10] (some "lucide-x")) "[placeholder=" = false := by
  decide

/-- C10 (amended): for a first path segment whose element has *no id*: with
at least one meaningful class, the `:has()` icon constraint (when an svg
icon class was detected) and, for input/textarea, the placeholder-or-type
attribute constraint are appended together to that segment; with no
meaningful classes, the segment is just the placeholder attribute selector
(or type / nth-of-type ordinal) and the detected svg icon class is silently
dropped (the parts are independent of it).  When the element has an id, the
segment is `#id` and both constraints are dropped (see the
counterexample). -/
theorem c10_first_segment_constraints (node : DomNode) (rest : List DomNode)
    (svg : String) (hid : node.idAttr = "") (hsvg : svg.isEmpty = false)
    (htag : (node.tag == "input" || node.tag == "textarea") = true)
    (hph : tstr node.placeholderAttr = true) :
    (meaningfulClasses node ≠ [] →
      buildCssSelectorParts (some svg) (node :: rest) 0 true =
        (node.tag
          ++ (String.join ((meaningfulClasses node).map (fun c => "." ++ cssEscape c))
            ++ ":has(." ++ cssEscape svg ++ ")"
            ++ "[placeholder=\"" ++ cssEscape (node.placeholderAttr.getD "") ++ "\"]"))
          :: buildCssSelectorParts (some svg) rest 1 false) ∧
    (meaningfulClasses node = [] →
      buildCssSelectorParts (some svg) (node :: rest) 0 true =
        (node.tag ++ "[placeholder=\"" ++ cssEscape (node.placeholderAttr.getD "")
            ++ "\"]")
          :: buildCssSelectorParts (some svg) rest 1 false ∧
      ∀ svg2, buildCssSelectorParts (some svg) (node :: rest) 0 true =
        buildCssSelectorParts svg2 (node :: rest) 0 true) := by
  constructor
  · intro hmc
    simp only [buildCssSelectorParts]
    rw [if_neg (by omega), if_neg (by rw [hid]; decide)]
    have hlen : 0 < (meaningfulClasses node).length := by
      cases hm : meaningfulClasses node with
      | nil => exact absurd hm hmc
      | cons a as => simp
    rw [if_pos hlen]
    have hsvg2 : tstr (some svg) = true := by simp [tstr, hsvg]
    simp [hsvg2, htag, hph]
  · intro hmc
    refine ⟨buildParts_noclass_first node rest (some svg) hid hmc htag hph, ?_⟩
    intro svg2
    rw [buildParts_noclass_first node rest (some svg) hid hmc htag hph,
        buildParts_noclass_first node rest svg2 hid hmc htag hph,
        buildParts_svg_irrelevant rest (some svg) svg2]

/-- C10 witness: an id-less input with meaningful classes gets both the icon
`:has()` constraint and the placeholder attribute on its first segment. -/
theorem c10_first_segment_constraints_witness :
    buildCssSelectorParts (some "lucide-search") [nodeC10b] 0 true =
      ["input.setting-input.wide:has(.lucide-search)[placeholder=\"Search files\"]"] := by
  have h := (c10_first_segment_constraints nodeC10b [] "lucide-search"
    rfl rfl rfl rfl).1 (by decide)
  rw [h]
  decide
